import Mathlib

/-!
Shallow embedding of the "Neural Network Design: The Gradient Puzzle" demo
(`src/app.js`, which contains two near-duplicate variants, here called v1 and
v2, plus the variants `src/unnamed/part_000` (p0) and `src/unnamed/part_001`
(p1)), together with proofs about its loss functions, model construction,
training loop, auto-train control flag and error handling.

Conventions of the embedding:
* tensors of shape `[1, 16, 16, 1]` (batch and channel dimensions of size 1)
  are modelled as functions `Fin 16 → Fin 16 → ℚ`; the library's float32
  arithmetic is idealised as exact rational arithmetic;
* flattening (`reshape([-1])` / `flatten()`) is row-major, as in the library;
* the external tensor library (layer forward passes, `tf.variableGrads`
  reverse-mode differentiation, random initialisation, the DOM) is treated as
  an external collaborator and is modelled by an explicit environment `TFEnv`
  of oracles, while the Adam optimizer's *state* (its shared β-power
  accumulators and per-variable moment accumulators) is modelled from the
  spec's description of "a built-in Adam step" following the standard Adam
  update rule.
-/

namespace NN2

/-- A `[1, 16, 16, 1]` tensor: first index is the row (y), second the
column (x); the batch and channel dimensions of size 1 are elided. -/
abbrev Image := Fin 16 → Fin 16 → ℚ

/-- Row-major correspondence between flat indices and (row, column) pairs,
as used by the library's `flatten` / `reshape([-1])`. -/
def pixIndex : Fin 256 ≃ Fin 16 × Fin 16 :=
  ((finProdFinEquiv : Fin 16 × Fin 16 ≃ Fin (16 * 16))).symm

/-- Row-major flattening of a `[1, 16, 16, 1]` tensor to a vector of its
256 pixels (`yTrue.reshape([-1])` in v1, `.flatten()` in v2/p0/p1). -/
def flattenImage (y : Image) : List ℚ :=
  List.ofFn (fun k : Fin 256 => y (pixIndex k).1 (pixIndex k).2)

/-- Sorting ascending, as `tf.sort` does in p0/p1's `sortedMSE`. -/
def sortAsc (l : List ℚ) : List ℚ :=
  l.mergeSort

/-- The `values` of `tf.topk(v, v.shape[0])`: all entries sorted in
descending order, as used by v1/v2's `sortedMSE`. -/
def sortDesc (l : List ℚ) : List ℚ :=
  (sortAsc l).reverse

/-- Mean of elementwise squared differences, the semantics of
`tf.losses.meanSquaredError` on two equally-shaped tensors. -/
def meanSqDiff (a b : List ℚ) : ℚ :=
  (List.zipWith (fun x y => (x - y) ^ 2) a b).sum / (a.length : ℚ)

/-- Source `mse(yTrue, yPred)` (identical in all variants):
`tf.losses.meanSquaredError(yTrue, yPred)`. -/
def mse (yTrue yPred : Image) : ℚ :=
  meanSqDiff (flattenImage yTrue) (flattenImage yPred)

/-- Source `sortedMSE(yTrue, yPred)` of app.js (v1 and v2): flatten both
arguments, sort both with `tf.topk` (descending), and take the MSE of the
sorted vectors. -/
def sortedMSE (yTrue yPred : Image) : ℚ :=
  meanSqDiff (sortDesc (flattenImage yTrue)) (sortDesc (flattenImage yPred))

/-- Source `sortedMSE(a, b)` of p0 and p1: flatten both arguments, sort both
with `tf.sort` (ascending), and take the mean squared difference. -/
def sortedMSE_sort (yTrue yPred : Image) : ℚ :=
  meanSqDiff (sortAsc (flattenImage yTrue)) (sortAsc (flattenImage yPred))

/-- Source `smoothness(yPred)` (identical formula in all four variants):
total variation loss. `diffX[i][j] = y[i][j] - y[i][j+1]` (j < 15, a
`[1,16,15,1]` tensor, 240 entries), `diffY[i][j] = y[i][j] - y[i+1][j]`
(i < 15), and the result is `mean(diffX²) + mean(diffY²)`. -/
def smoothness (yPred : Image) : ℚ :=
  (List.ofFn (fun i : Fin 16 =>
    (List.ofFn (fun j : Fin 15 => (yPred i j.castSucc - yPred i j.succ) ^ 2)).sum)).sum / 240
  + (List.ofFn (fun i : Fin 15 =>
    (List.ofFn (fun j : Fin 16 => (yPred i.castSucc j - yPred i.succ j) ^ 2)).sum)).sum / 240

/-- The weight mask `tf.linspace(-1, 1, 16)`, broadcast along rows:
column j gets weight `-1 + j·(2/15)`. -/
def linspaceMask (j : Fin 16) : ℚ := -1 + 2 * (j : ℚ) / 15

/-- Source `directionX(yPred)` (called `direction` in p0; identical formula
in all four variants): `tf.mean(yPred.mul(mask)).mul(-1)` with the linspace
mask broadcast over the 16 columns. -/
def directionX (yPred : Image) : ℚ :=
  -((List.ofFn (fun i : Fin 16 =>
    (List.ofFn (fun j : Fin 16 => yPred i j * linspaceMask j)).sum)).sum / 256)

/-- Source `studentLoss(yTrue, yPred)` of app.js v1:
`sortedMSE(yTrue,yPred) + smoothness(yPred).mul(0.1) + directionX(yPred).mul(0.3)`. -/
def studentLoss (yTrue yPred : Image) : ℚ :=
  sortedMSE yTrue yPred + smoothness yPred * (1 / 10) + directionX yPred * (3 / 10)

/-- Source `studentLoss(yTrue, yPred)` of app.js v2 (weights 5.0 and 5.0). -/
def studentLoss_v2 (yTrue yPred : Image) : ℚ :=
  sortedMSE yTrue yPred + smoothness yPred * 5 + directionX yPred * 5

/-- Source `studentLoss(x, y)` of p0:
`sortedMSE(x,y).mul(1.0) + smoothness(y).mul(0.15) + direction(y).mul(0.25)`. -/
def studentLoss_p0 (x y : Image) : ℚ :=
  sortedMSE_sort x y * 1 + smoothness y * (3 / 20) + directionX y * (1 / 4)

/-- Source `studentLoss(yTrue, yPred)` of p1 (weights 1.0, 0.08 and 0.18). -/
def studentLoss_p1 (yTrue yPred : Image) : ℚ :=
  sortedMSE_sort yTrue yPred * 1 + smoothness yPred * (2 / 25) + directionX yPred * (9 / 50)

/-- Rearrangement of an image by a permutation of its 256 pixel positions. -/
def permImage (σ : Equiv.Perm (Fin 16 × Fin 16)) (y : Image) : Image :=
  fun i j => y (σ (i, j)).1 (σ (i, j)).2

/-- The permutation induced on flat (row-major) indices by a permutation of
pixel positions. -/
def pixPerm (σ : Equiv.Perm (Fin 16 × Fin 16)) : Equiv.Perm (Fin 256) :=
  pixIndex.trans (σ.trans pixIndex.symm)

/-- Activation functions occurring in the sources. -/
inductive Activation
  | relu
  | sigmoid
deriving DecidableEq

/-- The library layers the sources stack with `model.add(tf.layers....)`:
`flatten`, `dense({units, activation})` and `reshape({targetShape})`. A model
is its list of layers in the order they are added. -/
inductive Layer
  | flatten
  | dense (units : ℕ) (activation : Activation)
  | reshape (targetShape : List ℕ)
deriving DecidableEq

/-- Source `createBaselineModel()` of app.js v1 (v2's, p0's `baselineModel()`
and p1's are textually identical): flatten → dense 64 relu (bottleneck) →
dense 256 sigmoid → reshape to `[16,16,1]`. -/
def createBaselineModel : List Layer :=
  [Layer.flatten, Layer.dense 64 Activation.relu,
   Layer.dense 256 Activation.sigmoid, Layer.reshape [16, 16, 1]]

/-- Source `createBaselineModel()` of app.js v2 (identical to v1's). -/
def createBaselineModel_v2 : List Layer :=
  [Layer.flatten, Layer.dense 64 Activation.relu,
   Layer.dense 256 Activation.sigmoid, Layer.reshape [16, 16, 1]]

/-- Source `baselineModel()` of p0 (identical architecture). -/
def baselineModel : List Layer :=
  [Layer.flatten, Layer.dense 64 Activation.relu,
   Layer.dense 256 Activation.sigmoid, Layer.reshape [16, 16, 1]]

/-- Source `createBaselineModel()` of p1 (identical architecture). -/
def createBaselineModel_p1 : List Layer :=
  [Layer.flatten, Layer.dense 64 Activation.relu,
   Layer.dense 256 Activation.sigmoid, Layer.reshape [16, 16, 1]]

/-- Source `createStudentModel(archType)` of app.js (v1 and v2 build the same
architectures): flatten, then two dense layers chosen by `archType`, then
reshape; an unknown `archType` throws
`new Error("Unknown architecture type: " + archType)`. -/
def createStudentModel (archType : String) : Except String (List Layer) :=
  if archType = "compression" then
    Except.ok [Layer.flatten, Layer.dense 64 Activation.relu,
      Layer.dense 256 Activation.sigmoid, Layer.reshape [16, 16, 1]]
  else if archType = "transformation" then
    Except.ok [Layer.flatten, Layer.dense 256 Activation.relu,
      Layer.dense 256 Activation.sigmoid, Layer.reshape [16, 16, 1]]
  else if archType = "expansion" then
    Except.ok [Layer.flatten, Layer.dense 512 Activation.relu,
      Layer.dense 256 Activation.sigmoid, Layer.reshape [16, 16, 1]]
  else
    Except.error ("Unknown architecture type: " ++ archType)

/-- Source `studentModel(type)` of p0: three independent `if`s and no throw;
an unmatched `type` yields just flatten → reshape. Its `transformation` and
`expansion` architectures have three dense layers. -/
def studentModel (type : String) : List Layer :=
  [Layer.flatten]
  ++ (if type = "compression" then
        [Layer.dense 64 Activation.relu, Layer.dense 256 Activation.sigmoid]
      else [])
  ++ (if type = "transformation" then
        [Layer.dense 256 Activation.relu, Layer.dense 256 Activation.relu,
         Layer.dense 256 Activation.sigmoid]
      else [])
  ++ (if type = "expansion" then
        [Layer.dense 512 Activation.relu, Layer.dense 512 Activation.relu,
         Layer.dense 256 Activation.sigmoid]
      else [])
  ++ [Layer.reshape [16, 16, 1]]

/-- Source `createStudentModel(archType)` of p1: an `if / else if` chain with
no final `else`, so an unknown arch silently yields flatten → reshape. -/
def createStudentModel_p1 (archType : String) : List Layer :=
  [Layer.flatten]
  ++ (if archType = "compression" then
        [Layer.dense 64 Activation.relu, Layer.dense 256 Activation.sigmoid]
      else if archType = "transformation" then
        [Layer.dense 256 Activation.relu, Layer.dense 256 Activation.relu,
         Layer.dense 256 Activation.sigmoid]
      else if archType = "expansion" then
        [Layer.dense 512 Activation.relu, Layer.dense 512 Activation.relu,
         Layer.dense 256 Activation.sigmoid]
      else [])
  ++ [Layer.reshape [16, 16, 1]]

/-- Named weight vectors: a model's trainable weights (and a gradient map)
are finite association lists from variable names to (flattened, idealised)
values, mirroring how the library keys gradients and optimizer accumulators
by variable name. -/
abbrev Weights := List (String × ℚ)

/-- Look up the gradient registered for a variable name, if any. -/
def lookupGrad (grads : Weights) (n : String) : Option ℚ :=
  (grads.find? (fun p => p.1 == n)).map (fun p => p.2)

/-- Adam's β₁ (library default 0.9). -/
def adamBeta1 : ℚ := 9 / 10

/-- Adam's β₂ (library default 0.999). -/
def adamBeta2 : ℚ := 999 / 1000

/-- Adam's ε (library default). -/
def adamEps : ℚ := 1 / 10 ^ 7

/-- Modelled from the spec: the external library's square root (the sources
contain no numeric kernels of their own; "optimization is a built-in Adam
step"). Real floating-point square root is not representable over ℚ, so it
is idealised by the componentwise integer square root; no claim below
depends on its values beyond `sqrtQ 1 = 1` and positivity at the concrete
inputs of the witnesses. -/
def sqrtQ (q : ℚ) : ℚ := (Int.sqrt q.num : ℚ) / (Nat.sqrt q.den : ℚ)

/-- Modelled from the spec: the state of one `tf.train.adam(lr)` optimizer
instance — the learning rate, the shared β-power accumulators `accBeta1 =
β₁^t` and `accBeta2 = β₂^t` (advanced once per `applyGradients` call, shared
by every variable the instance updates), and the per-variable first/second
moment accumulators keyed by variable name. -/
structure AdamState where
  lr : ℚ
  accBeta1 : ℚ
  accBeta2 : ℚ
  firstMoment : String → ℚ
  secondMoment : String → ℚ

/-- Modelled from the spec: `tf.train.adam(lr)` — a fresh Adam instance with
zero moments and β-power accumulators initialised to β₁, β₂. -/
def adamNew (lr : ℚ) : AdamState :=
  { lr := lr, accBeta1 := adamBeta1, accBeta2 := adamBeta2,
    firstMoment := fun _ => 0, secondMoment := fun _ => 0 }

/-- Modelled from the spec: one `optimizer.applyGradients(grads)` call of
the library's Adam. Every variable of `ws` that has a registered gradient
is updated by the standard Adam rule with bias correction taken from the
*shared* accumulators `accBeta1`/`accBeta2`, the per-variable moments are
advanced, and the shared accumulators are multiplied once by β₁/β₂. -/
def adamApplyGradients (o : AdamState) (grads : Weights) (ws : Weights) :
    AdamState × Weights :=
  let upd := fun (n : String) (w : ℚ) (g : ℚ) =>
    let m := o.firstMoment n * adamBeta1 + g * (1 - adamBeta1)
    let v := o.secondMoment n * adamBeta2 + g ^ 2 * (1 - adamBeta2)
    let mHat := m / (1 - o.accBeta1)
    let vHat := v / (1 - o.accBeta2)
    w - o.lr * mHat / (sqrtQ vHat + adamEps)
  let ws' := ws.map (fun nw =>
    match lookupGrad grads nw.1 with
    | none => nw
    | some g => (nw.1, upd nw.1 nw.2 g))
  let fm' := fun n =>
    match lookupGrad grads n with
    | some g => o.firstMoment n * adamBeta1 + g * (1 - adamBeta1)
    | none => o.firstMoment n
  let sm' := fun n =>
    match lookupGrad grads n with
    | some g => o.secondMoment n * adamBeta2 + g ^ 2 * (1 - adamBeta2)
    | none => o.secondMoment n
  ({ o with accBeta1 := o.accBeta1 * adamBeta1, accBeta2 := o.accBeta2 * adamBeta2,
            firstMoment := fm', secondMoment := sm' }, ws')

/-- Modelled from the spec: the oracles provided by the external library and
the DOM. `predict` is a model's forward pass; `baseGrads w x` / `studentGrads
w x` are the gradient maps returned by `tf.variableGrads` for the baseline
MSE loss and the student custom loss at weights `w` and input `x`
(`studentGrads` may fail, modelling a library exception thrown inside the
student branch); `freshWeights` is random layer initialisation;
`checkedArch` is the checked DOM radio button, if any. -/
structure TFEnv where
  predict : List Layer → Weights → Image → Image
  baseGrads : Weights → Image → Weights
  studentGrads : Weights → Image → Except String Weights
  freshWeights : List Layer → Weights
  checkedArch : Option String

/-- One line of the log panel (`log(msg, isError)` prepends it). -/
structure LogEntry where
  msg : String
  isError : Bool
deriving DecidableEq

/-- The mutable global `state` of app.js v1 plus the log panel. `xInput` is
the fixed noise input; `studentLayers` is `Option` because `trainStep`
explicitly guards against an uninitialised student model; the single
`optimizer` field mirrors the single shared `state.optimizer`. -/
structure AppState where
  step : ℕ
  isAutoTraining : Bool
  xInput : Image
  baselineLayers : List Layer
  baselineWeights : Weights
  studentLayers : Option (List Layer)
  studentWeights : Weights
  optimizer : AdamState
  logs : List LogEntry

/-- Source `log(msg, isError)`: prepend an entry to the log panel. -/
def logMsg (s : AppState) (m : String) (isErr : Bool) : AppState :=
  { s with logs := { msg := m, isError := isErr } :: s.logs }

/-- Source `stopAutoTrain()` of app.js: clears the flag (the button-label
changes are not modelled). -/
def stopAutoTrainApp (s : AppState) : AppState :=
  { s with isAutoTraining := false }

/-- The baseline half of app.js v1's `trainStep`: `tf.variableGrads` of the
MSE loss of the baseline's prediction on `state.xInput` against
`state.xInput`, applied by `state.optimizer.applyGradients` — note to the
single shared optimizer. -/
def baselinePhase (env : TFEnv) (s : AppState) : AppState :=
  let r := adamApplyGradients s.optimizer (env.baseGrads s.baselineWeights s.xInput)
    s.baselineWeights
  { s with optimizer := r.1, baselineWeights := r.2 }

/-- The loss value (`value.dataSync()[0]`) reported by the baseline half of
`trainStep`. -/
def baselinePhaseValue (env : TFEnv) (s : AppState) : ℚ :=
  mse s.xInput (env.predict s.baselineLayers s.baselineWeights s.xInput)

/-- Source `trainStep()` of app.js v1. In order: `state.step++`; guard on an
uninitialised student model (log + `stopAutoTrain` + return); baseline update
through the shared optimizer; student update through the same shared
optimizer inside `try`, whose `catch` logs the message as an error, calls
`stopAutoTrain()` and returns; on success the step's losses are logged.
(The `render`/`updateLossDisplay` visualisation writes no program state and
is not modelled here; numeric display rounding of the log line is elided.) -/
def trainStep (env : TFEnv) (s0 : AppState) : AppState :=
  let s := { s0 with step := s0.step + 1 }
  match s.studentLayers with
  | none => stopAutoTrainApp (logMsg s ("Error: Student model not initialized properly.") true)
  | some layers =>
    let baseVal := baselinePhaseValue env s
    let s1 := baselinePhase env s
    match env.studentGrads s1.studentWeights s1.xInput with
    | Except.error e =>
        stopAutoTrainApp (logMsg s1 ("Error in Student Training: " ++ e) true)
    | Except.ok g =>
        let studVal := studentLoss s1.xInput (env.predict layers s1.studentWeights s1.xInput)
        let r := adamApplyGradients s1.optimizer g s1.studentWeights
        logMsg { s1 with optimizer := r.1, studentWeights := r.2 }
          ("Step " ++ toString s1.step ++ ": Base Loss=" ++ toString baseVal
            ++ " | Student Loss=" ++ toString studVal) false

/-- Source `CONFIG.learningRate` of app.js v1 (0.05). -/
def configLearningRate : ℚ := 1 / 20

/-- Source `CONFIG.inputShapeData` of app.js: `[1, 16, 16, 1]`. -/
def configInputShapeData : List ℕ := [1, 16, 16, 1]

/-- Source `resetModels(archType)` of app.js v1: coerce a non-string
`archType` to null (modelled by `Option`); stop auto-training if running;
default the arch from the checked DOM radio, else `"transformation"`;
dispose and recreate both models, falling back to a baseline-architecture
student (with an error log) if `createStudentModel` throws; create ONE new
shared Adam optimizer; zero the step counter; log the reset. `state.xInput`
is not touched. -/
def resetModels (env : TFEnv) (s0 : AppState) (archType0 : Option String) : AppState :=
  let s := if s0.isAutoTraining then stopAutoTrainApp s0 else s0
  let arch := archType0.getD (env.checkedArch.getD ("transformation"))
  let baseL := createBaselineModel
  let p :=
    match createStudentModel arch with
    | Except.ok l => (l, s)
    | Except.error e => (createBaselineModel, logMsg s ("Error creating model: " ++ e) true)
  logMsg
    { p.2 with
      baselineLayers := baseL,
      baselineWeights := env.freshWeights baseL,
      studentLayers := some p.1,
      studentWeights := env.freshWeights p.1,
      optimizer := adamNew configLearningRate,
      step := 0 }
    ("Models reset. Student Arch: " ++ arch) false

/-- The pre-`init` global `state` object of app.js with a given noise sample
in `xInput` (the `null` model/optimizer fields before the first
`resetModels()` are represented by `none`/empty placeholders). -/
def initialState (noise : Image) : AppState :=
  { step := 0, isAutoTraining := false, xInput := noise,
    baselineLayers := [], baselineWeights := [],
    studentLayers := none, studentWeights := [],
    optimizer := adamNew configLearningRate, logs := [] }

/-- Source `init()` of app.js v1: generate the fixed noise once
(`tf.randomUniform(CONFIG.inputShapeData)`, the sample supplied here as
`noise`), call `resetModels()`, and log readiness (event wiring and the
initial canvas render write no program state). -/
def init (env : TFEnv) (noise : Image) : AppState :=
  logMsg (resetModels env (initialState noise) none) ("Initialized. Ready to train.") false

/-- Source `render()`: predictions of both models on `state.xInput`, which
are drawn to the two canvases (`getD []` stands for the crash that a null
model would cause; `render` is only reached after `resetModels`). -/
def render (env : TFEnv) (s : AppState) : Image × Image :=
  (env.predict s.baselineLayers s.baselineWeights s.xInput,
   env.predict (s.studentLayers.getD []) s.studentWeights s.xInput)

/-- The global `state` of p1 (and, with its field names `optBase`/`optStudent`,
of p0): unlike app.js it holds TWO optimizers, `baselineOptimizer` and
`studentOptimizer`, one per model. -/
structure AppStateP1 where
  step : ℕ
  isAutoTraining : Bool
  xInput : Image
  baselineWeights : Weights
  studentWeights : Weights
  baselineOptimizer : AdamState
  studentOptimizer : AdamState

/-- Source `trainStep()` of p1 (p0's `trainStep` is the same update logic
without the step counter): `state.step++`; baseline gradients applied by
`state.baselineOptimizer`; student gradients applied by
`state.studentOptimizer`. There is no `try`/`catch`: a library exception in
the student branch propagates out (`Except.error`). -/
def trainStep_p1 (env : TFEnv) (s0 : AppStateP1) : Except String AppStateP1 :=
  let s := { s0 with step := s0.step + 1 }
  let rB := adamApplyGradients s.baselineOptimizer
    (env.baseGrads s.baselineWeights s.xInput) s.baselineWeights
  match env.studentGrads s.studentWeights s.xInput with
  | Except.error e => Except.error e
  | Except.ok g =>
      let rS := adamApplyGradients s.studentOptimizer g s.studentWeights
      Except.ok { s with
        baselineOptimizer := rB.1, baselineWeights := rB.2,
        studentOptimizer := rS.1, studentWeights := rS.2 }

/-- Source `CONFIG.learningRate` of p1 (0.015). -/
def configLearningRate_p1 : ℚ := 3 / 200

/-- Source `resetModels()` of p1: recreate both models and create TWO fresh
Adam optimizers, one per model; zero the step counter; `state.xInput` is not
touched. (The DOM radio read and the render call write no modelled state.) -/
def resetModels_p1 (env : TFEnv) (s0 : AppStateP1) (arch : String) : AppStateP1 :=
  { s0 with
    baselineWeights := env.freshWeights createBaselineModel_p1,
    studentWeights := env.freshWeights (createStudentModel_p1 arch),
    baselineOptimizer := adamNew configLearningRate_p1,
    studentOptimizer := adamNew configLearningRate_p1,
    step := 0 }

/-- The auto-train control state shared by all variants: the boolean flag,
the number of outstanding `setTimeout(loop, …)` callbacks, and the number of
`trainStep` invocations made by the auto-train loop so far. -/
structure AutoState where
  isAutoTraining : Bool
  pending : ℕ
  steps : ℕ
deriving DecidableEq

/-- The body of `loop()` (identical control logic in all variants): if the
flag is set, invoke `trainStep` and schedule another `loop` callback;
otherwise do nothing. -/
def loopRun (s : AutoState) : AutoState :=
  if s.isAutoTraining then { s with steps := s.steps + 1, pending := s.pending + 1 } else s

/-- Source `stopAutoTrain()`: clear the flag (outstanding callbacks are not
cancelled — they fire and find the flag false). -/
def stopAutoTrainFlag (s : AutoState) : AutoState :=
  { s with isAutoTraining := false }

/-- Source `toggleAutoTrain()` of app.js: if auto-training, `stopAutoTrain()`;
otherwise set the flag and call `loop()` synchronously. -/
def toggleAutoTrain (s : AutoState) : AutoState :=
  if s.isAutoTraining then stopAutoTrainFlag s
  else loopRun { s with isAutoTraining := true }

/-- Source `toggleAuto()` of p0 (p1's `toggleAutoTrain` is the same):
`state.auto = !state.auto; if (state.auto) loop();`. -/
def toggleAuto (s : AutoState) : AutoState :=
  let s1 := { s with isAutoTraining := !s.isAutoTraining }
  if s1.isAutoTraining then loopRun s1 else s1

/-- One scheduled `setTimeout(loop, …)` callback fires (if any is
outstanding): it runs `loop()`. -/
def fireTimer (s : AutoState) : AutoState :=
  if s.pending = 0 then s else loopRun { s with pending := s.pending - 1 }

/-- Any number of scheduled callbacks fire in sequence. -/
def fireTimers : ℕ → AutoState → AutoState
  | 0, s => s
  | n + 1, s => fireTimers n (fireTimer s)

/-- A constant-zero image (used as an arbitrary `yTrue` argument). -/
def zeroImage : Image := fun _ _ => 0

/-- The left-to-right ramp image: pixel (i, j) has value j. -/
def ramp : Image := fun _ j => (j : ℚ)

/-- The ramp image scaled by 2. -/
def ramp2 : Image := fun _ j => 2 * (j : ℚ)

/-- An image is monotone along x when every row is non-decreasing from left
to right (the arrangements a monotonicity penalty would not penalise). -/
def RowMonotone (y : Image) : Prop :=
  ∀ i j k : Fin 16, j ≤ k → y i j ≤ y i k

/-- Formalisation of the spec's four-term reading of the student loss: there
are weights and a monotonicity term — a genuine penalty (not identically
zero) on the arrangement of `yPred` that vanishes on row-monotone images —
such that `studentLoss` is the weighted sum of `sortedMSE`, `smoothness`,
`directionX` and that monotonicity term. -/
def FourTermStudentLoss : Prop :=
  ∃ (lam1 lam2 lam3 : ℚ) (mono : Image → ℚ),
    lam3 ≠ 0 ∧
    (∀ p, RowMonotone p → mono p = 0) ∧
    (∃ p, mono p ≠ 0) ∧
    (∀ yTrue yPred, studentLoss yTrue yPred =
      sortedMSE yTrue yPred + lam1 * smoothness yPred
        + lam2 * directionX yPred + lam3 * mono yPred)

/-- A concrete oracle environment used by witnesses: the identity forward
pass, constant gradient 1 on the variable named `b` for the baseline and on
`s` for the student, empty fresh weights, no checked radio. -/
def envOk : TFEnv :=
  { predict := fun _ _ x => x,
    baseGrads := fun _ _ => [("b", 1)],
    studentGrads := fun _ _ => Except.ok [("s", 1)],
    freshWeights := fun _ => [],
    checkedArch := none }

/-- A concrete oracle environment whose student branch throws. -/
def envErr : TFEnv :=
  { envOk with studentGrads := fun _ _ => Except.error ("boom") }

/-- A concrete app.js state: fresh shared optimizer, one baseline variable
`b` and one student variable `s`, both zero. -/
def appState0 : AppState :=
  { step := 0, isAutoTraining := true, xInput := zeroImage,
    baselineLayers := createBaselineModel,
    baselineWeights := [("b", 0)],
    studentLayers := some createBaselineModel,
    studentWeights := [("s", 0)],
    optimizer := adamNew configLearningRate, logs := [] }

/-- A concrete p1 state with two fresh optimizers. -/
def p1State0 : AppStateP1 :=
  { step := 0, isAutoTraining := true, xInput := zeroImage,
    baselineWeights := [("b", 0)], studentWeights := [("s", 0)],
    baselineOptimizer := adamNew configLearningRate_p1,
    studentOptimizer := adamNew configLearningRate_p1 }

/-! Helper lemmas. -/

theorem flattenImage_permImage (σ : Equiv.Perm (Fin 16 × Fin 16)) (y : Image) :
    flattenImage (permImage σ y) =
      List.ofFn ((fun k => y (pixIndex k).1 (pixIndex k).2) ∘ (pixPerm σ)) := by
  refine congrArg List.ofFn (funext fun k => ?_)
  show y (σ (pixIndex k)).1 (σ (pixIndex k)).2
      = y (pixIndex (pixPerm σ k)).1 (pixIndex (pixPerm σ k)).2
  rw [show pixIndex (pixPerm σ k) = σ (pixIndex k) from pixIndex.apply_symm_apply _]

theorem flattenImage_perm (σ : Equiv.Perm (Fin 16 × Fin 16)) (y : Image) :
    List.Perm (flattenImage (permImage σ y)) (flattenImage y) := by
  rw [flattenImage_permImage]
  exact (pixPerm σ).ofFn_comp_perm _

theorem sortAsc_congr {l₁ l₂ : List ℚ} (h : List.Perm l₁ l₂) :
    sortAsc l₁ = sortAsc l₂ :=
  List.eq_of_perm_of_sorted
    ((List.mergeSort_perm l₁ _).trans (h.trans (List.mergeSort_perm l₂ _).symm))
    (List.sorted_mergeSort' l₁) (List.sorted_mergeSort' l₂)

theorem length_sortAsc (l : List ℚ) : (sortAsc l).length = l.length :=
  List.length_mergeSort _

theorem length_flattenImage (y : Image) : (flattenImage y).length = 256 :=
  List.length_ofFn _

theorem meanSqDiff_self (l : List ℚ) : meanSqDiff l l = 0 := by
  simp [meanSqDiff, List.zipWith_same]

theorem meanSqDiff_reverse {a b : List ℚ} (h : a.length = b.length) :
    meanSqDiff a.reverse b.reverse = meanSqDiff a b := by
  unfold meanSqDiff
  rw [← List.reverse_zipWith h, List.sum_reverse, List.length_reverse]

theorem sortedMSE_eq_sort (yTrue yPred : Image) :
    sortedMSE yTrue yPred = sortedMSE_sort yTrue yPred := by
  unfold sortedMSE sortedMSE_sort sortDesc
  exact meanSqDiff_reverse (by
    rw [length_sortAsc, length_sortAsc, length_flattenImage, length_flattenImage])

theorem sortedMSE_sort_perm (σ τ : Equiv.Perm (Fin 16 × Fin 16)) (x y : Image) :
    sortedMSE_sort (permImage σ x) (permImage τ y) = sortedMSE_sort x y := by
  unfold sortedMSE_sort
  rw [sortAsc_congr (flattenImage_perm σ x), sortAsc_congr (flattenImage_perm τ y)]

theorem sortedMSE_sort_self_perm (σ : Equiv.Perm (Fin 16 × Fin 16)) (x : Image) :
    sortedMSE_sort x (permImage σ x) = 0 := by
  unfold sortedMSE_sort
  rw [sortAsc_congr (flattenImage_perm σ x)]
  exact meanSqDiff_self _

/-- C3: the sorted-MSE loss component conserves the pixel distribution while
allowing rearrangement: on 256-pixel images, both variants of `sortedMSE`
(the `tf.topk` one of app.js and the `tf.sort` one of p0/p1) are invariant
under arbitrary permutations of the pixels of either argument, and vanish on
any pair (image, permuted image). -/
theorem claim_C3 (x y : Image) (σ τ : Equiv.Perm (Fin 16 × Fin 16)) :
    sortedMSE (permImage σ x) (permImage τ y) = sortedMSE x y
    ∧ sortedMSE_sort (permImage σ x) (permImage τ y) = sortedMSE_sort x y
    ∧ sortedMSE x (permImage σ x) = 0
    ∧ sortedMSE_sort x (permImage σ x) = 0 := by
  refine ⟨?_, sortedMSE_sort_perm σ τ x y, ?_, sortedMSE_sort_self_perm σ x⟩
  · rw [sortedMSE_eq_sort, sortedMSE_eq_sort]
    exact sortedMSE_sort_perm σ τ x y
  · rw [sortedMSE_eq_sort]
    exact sortedMSE_sort_self_perm σ x

theorem smoothness_eq_finset (y : Image) :
    smoothness y =
      (∑ i : Fin 16, ∑ j : Fin 15, (y i j.castSucc - y i j.succ) ^ 2) / 240
      + (∑ i : Fin 15, ∑ j : Fin 16, (y i.castSucc j - y i.succ j) ^ 2) / 240 := by
  simp only [smoothness, List.sum_ofFn]

theorem smoothness_nonneg (y : Image) : 0 ≤ smoothness y := by
  rw [smoothness_eq_finset]
  positivity

theorem smoothness_eq_zero_iff (y : Image) :
    smoothness y = 0 ↔ ∃ c, ∀ i j, y i j = c := by
  constructor
  · intro h
    rw [smoothness_eq_finset] at h
    have hA : (0:ℚ) ≤ ∑ i : Fin 16, ∑ j : Fin 15, (y i j.castSucc - y i j.succ) ^ 2 := by
      positivity
    have hB : (0:ℚ) ≤ ∑ i : Fin 15, ∑ j : Fin 16, (y i.castSucc j - y i.succ j) ^ 2 := by
      positivity
    have hA0 : (∑ i : Fin 16, ∑ j : Fin 15, (y i j.castSucc - y i j.succ) ^ 2) = 0 := by
      linarith
    have hB0 : (∑ i : Fin 15, ∑ j : Fin 16, (y i.castSucc j - y i.succ j) ^ 2) = 0 := by
      linarith
    have hx : ∀ (i : Fin 16) (j : Fin 15), y i j.castSucc = y i j.succ := by
      intro i j
      have h1 := (Finset.sum_eq_zero_iff_of_nonneg
        (fun i _ => Finset.sum_nonneg (fun j _ => sq_nonneg _))).mp hA0 i (Finset.mem_univ i)
      have h2 := (Finset.sum_eq_zero_iff_of_nonneg
        (fun j _ => sq_nonneg _)).mp h1 j (Finset.mem_univ j)
      exact sub_eq_zero.mp ((pow_eq_zero_iff (by decide : (2:ℕ) ≠ 0)).mp h2)
    have hy : ∀ (i : Fin 15) (j : Fin 16), y i.castSucc j = y i.succ j := by
      intro i j
      have h1 := (Finset.sum_eq_zero_iff_of_nonneg
        (fun i _ => Finset.sum_nonneg (fun j _ => sq_nonneg _))).mp hB0 i (Finset.mem_univ i)
      have h2 := (Finset.sum_eq_zero_iff_of_nonneg
        (fun j _ => sq_nonneg _)).mp h1 j (Finset.mem_univ j)
      exact sub_eq_zero.mp ((pow_eq_zero_iff (by decide : (2:ℕ) ≠ 0)).mp h2)
    have hrow : ∀ (i : Fin 16) (j : Fin 16), y i j = y i 0 := by
      intro i j
      induction j using Fin.induction with
      | zero => rfl
      | succ j ih => exact (hx i j).symm.trans ih
    have hcol : ∀ (i : Fin 16), y i 0 = y 0 0 := by
      intro i
      induction i using Fin.induction with
      | zero => rfl
      | succ i ih => exact (hy i 0).symm.trans ih
    exact ⟨y 0 0, fun i j => (hrow i j).trans (hcol i)⟩
  · rintro ⟨c, hc⟩
    rw [smoothness_eq_finset]
    simp [hc]

theorem maskSum : (List.ofFn linspaceMask).sum = 0 := by
  simp [linspaceMask, List.ofFn_succ]
  norm_num

theorem directionX_const (c : ℚ) : directionX (fun _ _ => c) = 0 := by
  unfold directionX
  simp only [List.sum_ofFn]
  have h : ∑ j : Fin 16, linspaceMask j = 0 := by
    rw [← List.sum_ofFn]
    exact maskSum
  simp [← Finset.mul_sum, h]

/-- C9: the smoothness (total-variation) loss is non-negative and vanishes
exactly on constant images; `directionX` of any constant image is 0, the
linspace mask having zero mean. -/
theorem claim_C9 (y : Image) :
    0 ≤ smoothness y
    ∧ (smoothness y = 0 ↔ ∃ c, ∀ i j, y i j = c)
    ∧ (∀ c : ℚ, directionX (fun _ _ => c) = 0)
    ∧ (List.ofFn linspaceMask).sum / 16 = 0 := by
  refine ⟨smoothness_nonneg y, smoothness_eq_zero_iff y, directionX_const, ?_⟩
  rw [maskSum]
  norm_num

theorem rowMonotone_ramp : RowMonotone ramp := by
  intro i j k h
  simp only [ramp]
  exact_mod_cast h

theorem rowMonotone_ramp2 : RowMonotone ramp2 := by
  intro i j k h
  simp only [ramp2]
  have hk : ((j : ℕ) : ℚ) ≤ ((k : ℕ) : ℚ) := by exact_mod_cast h
  linarith

theorem smoothness_ramp : smoothness ramp = 1 := by
  rw [smoothness_eq_finset]
  have h1 : ∀ (i : Fin 16) (j : Fin 15), (ramp i j.castSucc - ramp i j.succ) ^ 2 = 1 := by
    intro i j
    simp only [ramp, Fin.coe_castSucc, Fin.val_succ]
    push_cast
    ring
  have h2 : ∀ (i : Fin 15) (j : Fin 16), (ramp i.castSucc j - ramp i.succ j) ^ 2 = 0 := by
    intro i j
    simp [ramp]
  simp only [h1, h2, Finset.sum_const, Finset.card_univ, Fintype.card_fin, nsmul_eq_mul]
  norm_num

theorem smoothness_ramp2 : smoothness ramp2 = 4 := by
  rw [smoothness_eq_finset]
  have h1 : ∀ (i : Fin 16) (j : Fin 15), (ramp2 i j.castSucc - ramp2 i j.succ) ^ 2 = 4 := by
    intro i j
    simp only [ramp2, Fin.coe_castSucc, Fin.val_succ]
    push_cast
    ring
  have h2 : ∀ (i : Fin 15) (j : Fin 16), (ramp2 i.castSucc j - ramp2 i.succ j) ^ 2 = 0 := by
    intro i j
    simp [ramp2]
  simp only [h1, h2, Finset.sum_const, Finset.card_univ, Fintype.card_fin, nsmul_eq_mul]
  norm_num

theorem maskWeightedSum : (∑ j : Fin 16, ((j : ℕ) : ℚ) * linspaceMask j) = 136 / 3 := by
  simp [linspaceMask, Fin.sum_univ_succ]
  norm_num

theorem directionX_ramp : directionX ramp = -(17 / 6) := by
  simp only [directionX, List.sum_ofFn, ramp]
  rw [show (∑ i : Fin 16, ∑ j : Fin 16, ((j : ℕ) : ℚ) * linspaceMask j)
      = ∑ _i : Fin 16, (136 / 3 : ℚ) from Finset.sum_congr rfl
        (fun _ _ => maskWeightedSum)]
  simp [Finset.sum_const, Finset.card_univ]
  norm_num

theorem directionX_ramp2 : directionX ramp2 = -(17 / 3) := by
  simp only [directionX, List.sum_ofFn, ramp2]
  have h : ∀ _i : Fin 16, (∑ j : Fin 16, 2 * ((j : ℕ) : ℚ) * linspaceMask j) = 272 / 3 := by
    intro i
    have h2 : ∀ j : Fin 16, 2 * ((j : ℕ) : ℚ) * linspaceMask j
        = 2 * (((j : ℕ) : ℚ) * linspaceMask j) := fun j => by ring
    rw [Finset.sum_congr rfl (fun j _ => h2 j), ← Finset.mul_sum, maskWeightedSum]
    norm_num
  rw [Finset.sum_congr rfl (fun i _ => h i)]
  simp [Finset.sum_const, Finset.card_univ]
  norm_num

/-- C2 counterexample: the student loss is NOT a weighted four-term sum with
a genuine monotonicity term — no non-trivial penalty vanishing on
row-monotone images fits: the code's `studentLoss` equals the three-term sum
exactly, and evaluating on the monotone ramp images forces any candidate
monotonicity term to be identically zero. -/
theorem claim_C2_counterexample : ¬ FourTermStudentLoss := by
  rintro ⟨l1, l2, l3, mono, hl3, hmono, ⟨q, hq⟩, hsum⟩
  have hmr : mono ramp = 0 := hmono ramp rowMonotone_ramp
  have hmr2 : mono ramp2 = 0 := hmono ramp2 rowMonotone_ramp2
  have e1 := hsum zeroImage ramp
  have e2 := hsum zeroImage ramp2
  simp only [studentLoss] at e1 e2
  rw [smoothness_ramp, directionX_ramp, hmr, mul_zero] at e1
  rw [smoothness_ramp2, directionX_ramp2, hmr2, mul_zero] at e2
  have hw1 : l1 = 1 / 10 := by linarith
  have hw2 : l2 = 3 / 10 := by linarith
  have e0 := hsum zeroImage q
  simp only [studentLoss] at e0
  rw [hw1, hw2] at e0
  have hz : l3 * mono q = 0 := by linarith
  rcases mul_eq_zero.mp hz with h | h
  · exact hl3 h
  · exact hq h

/-- C2 (amended): the student's custom loss of app.js is a composition of
THREE terms — the distribution/histogram-conservation term (sorted MSE), the
smoothness term and the directional-bias term; `studentLoss(yTrue, yPred)`
returns `sortedMSE yTrue yPred + (1/10)·smoothness yPred +
(3/10)·directionX yPred`, and there is no monotonicity term. -/
theorem claim_C2 (yTrue yPred : Image) :
    studentLoss yTrue yPred =
      sortedMSE yTrue yPred + (1 / 10) * smoothness yPred
        + (3 / 10) * directionX yPred := by
  simp only [studentLoss]
  ring

/-- C7: across all four variants the baseline model is the identical fixed
undercomplete autoencoder (flatten → dense 64 relu → dense 256 sigmoid →
reshape to 16×16×1), and every variant's `studentLoss` has the same shape
`sortedMSE + λ₁·smoothness + λ₂·directionX`, differing only in the constants
λ₁ and λ₂ (v1: 0.1/0.3, v2: 5/5, p0: 0.15/0.25, p1: 0.08/0.18; p0 and p1's
`tf.sort`-based `sortedMSE` agrees with app.js's `tf.topk`-based one). -/
theorem claim_C7 (yTrue yPred : Image) :
    createBaselineModel
      = [Layer.flatten, Layer.dense 64 Activation.relu,
         Layer.dense 256 Activation.sigmoid, Layer.reshape [16, 16, 1]]
    ∧ createBaselineModel_v2 = createBaselineModel
    ∧ baselineModel = createBaselineModel
    ∧ createBaselineModel_p1 = createBaselineModel
    ∧ studentLoss yTrue yPred
        = sortedMSE yTrue yPred + (1 / 10) * smoothness yPred
          + (3 / 10) * directionX yPred
    ∧ studentLoss_v2 yTrue yPred
        = sortedMSE yTrue yPred + 5 * smoothness yPred + 5 * directionX yPred
    ∧ studentLoss_p0 yTrue yPred
        = sortedMSE yTrue yPred + (3 / 20) * smoothness yPred
          + (1 / 4) * directionX yPred
    ∧ studentLoss_p1 yTrue yPred
        = sortedMSE yTrue yPred + (2 / 25) * smoothness yPred
          + (9 / 50) * directionX yPred := by
  refine ⟨rfl, rfl, rfl, rfl, ?_, ?_, ?_, ?_⟩ <;>
    simp only [studentLoss, studentLoss_v2, studentLoss_p0, studentLoss_p1,
      sortedMSE_eq_sort] <;>
    ring

theorem fireTimers_no_step :
    ∀ (n : ℕ) (s : AutoState), s.isAutoTraining = false →
      (fireTimers n s).steps = s.steps ∧ (fireTimers n s).isAutoTraining = false := by
  intro n
  induction n with
  | zero => intro s h; exact ⟨rfl, h⟩
  | succ n ih =>
    intro s h
    have hf : (fireTimer s).steps = s.steps ∧ (fireTimer s).isAutoTraining = false := by
      unfold fireTimer loopRun
      by_cases hp : s.pending = 0 <;> simp [hp, h]
    have hr := ih (fireTimer s) hf.2
    exact ⟨hr.1.trans hf.1, hr.2⟩

/-- C5: the only control state machine is the boolean auto-train flag:
`toggleAutoTrain` flips the flag (p0/p1's `toggleAuto` is the same function
of the control state), the loop's timer callbacks invoke `trainStep` only
while the flag is true, and once the flag is false no number of outstanding
timer callbacks performs a training step or re-sets the flag. -/
theorem claim_C5 (s : AutoState) (n : ℕ) :
    (toggleAutoTrain s).isAutoTraining = !s.isAutoTraining
    ∧ toggleAuto s = toggleAutoTrain s
    ∧ (stopAutoTrainFlag s).isAutoTraining = false
    ∧ (s.isAutoTraining = false →
        (fireTimers n s).steps = s.steps ∧ (fireTimers n s).isAutoTraining = false) := by
  refine ⟨?_, ?_, rfl, fun h => fireTimers_no_step n s h⟩
  · by_cases h : s.isAutoTraining <;>
      simp [toggleAutoTrain, stopAutoTrainFlag, loopRun, h]
  · by_cases h : s.isAutoTraining <;>
      simp [toggleAuto, toggleAutoTrain, stopAutoTrainFlag, loopRun, h]

/-- C5 witness: concrete run — with the flag off and three callbacks
outstanding, two firings perform no training step and leave the flag off. -/
theorem claim_C5_witness :
    (fireTimers 2 { isAutoTraining := false, pending := 3, steps := 5 }).steps = 5
    ∧ (fireTimers 2
        { isAutoTraining := false, pending := 3, steps := 5 }).isAutoTraining = false :=
  (claim_C5 { isAutoTraining := false, pending := 3, steps := 5 } 2).2.2.2 rfl

theorem resetModels_xInput (env : TFEnv) (s : AppState) (a : Option String) :
    (resetModels env s a).xInput = s.xInput := by
  unfold resetModels logMsg stopAutoTrainApp
  by_cases h : s.isAutoTraining <;>
    simp only [h, if_true, if_false] <;>
    rcases createStudentModel ((a.getD (env.checkedArch.getD ("transformation")))) with l | e <;>
    rfl

theorem trainStep_xInput (env : TFEnv) (s : AppState) :
    (trainStep env s).xInput = s.xInput := by
  unfold trainStep
  dsimp only
  split
  · rfl
  · split <;> rfl

/-- C6: the input is the fixed noise image: `init` installs the sampled
noise of shape `[1,16,16,1]` into `state.xInput`; `trainStep` and
`resetModels` never modify or regenerate it; the baseline loss is computed
against `state.xInput` and `render` feeds the same `state.xInput` to both
models. -/
theorem claim_C6 (env : TFEnv) (noise : Image) (s : AppState) (a : Option String) :
    (init env noise).xInput = noise
    ∧ (trainStep env s).xInput = s.xInput
    ∧ (resetModels env s a).xInput = s.xInput
    ∧ baselinePhaseValue env s
        = mse s.xInput (env.predict s.baselineLayers s.baselineWeights s.xInput)
    ∧ render env s
        = (env.predict s.baselineLayers s.baselineWeights s.xInput,
           env.predict (s.studentLayers.getD []) s.studentWeights s.xInput)
    ∧ configInputShapeData = [1, 16, 16, 1] := by
  refine ⟨?_, trainStep_xInput env s, resetModels_xInput env s a, rfl, rfl, rfl⟩
  show (resetModels env (initialState noise) none).xInput = noise
  rw [resetModels_xInput]
  rfl

theorem trainStep_ok (env : TFEnv) (s : AppState) (layers : List Layer) (g : Weights)
    (h1 : s.studentLayers = some layers)
    (h2 : env.studentGrads s.studentWeights s.xInput = Except.ok g) :
    trainStep env s =
      logMsg
        { s with
          step := s.step + 1,
          baselineWeights := (adamApplyGradients s.optimizer
              (env.baseGrads s.baselineWeights s.xInput) s.baselineWeights).2,
          studentWeights := (adamApplyGradients
              (adamApplyGradients s.optimizer (env.baseGrads s.baselineWeights s.xInput)
                s.baselineWeights).1 g s.studentWeights).2,
          optimizer := (adamApplyGradients
              (adamApplyGradients s.optimizer (env.baseGrads s.baselineWeights s.xInput)
                s.baselineWeights).1 g s.studentWeights).1 }
        ("Step " ++ toString (s.step + 1) ++ ": Base Loss="
          ++ toString (baselinePhaseValue env { s with step := s.step + 1 })
          ++ " | Student Loss="
          ++ toString (studentLoss s.xInput (env.predict layers s.studentWeights s.xInput)))
        false := by
  unfold trainStep
  dsimp only
  rw [h1]
  dsimp only [baselinePhase]
  rw [h2]

theorem trainStep_err (env : TFEnv) (s : AppState) (layers : List Layer) (e : String)
    (h1 : s.studentLayers = some layers)
    (h2 : env.studentGrads s.studentWeights s.xInput = Except.error e) :
    trainStep env s =
      stopAutoTrainApp (logMsg
        { s with
          step := s.step + 1,
          baselineWeights := (adamApplyGradients s.optimizer
              (env.baseGrads s.baselineWeights s.xInput) s.baselineWeights).2,
          optimizer := (adamApplyGradients s.optimizer
              (env.baseGrads s.baselineWeights s.xInput) s.baselineWeights).1 }
        ("Error in Student Training: " ++ e) true) := by
  unfold trainStep
  dsimp only
  rw [h1]
  dsimp only [baselinePhase]
  rw [h2]

theorem trainStep_p1_err (env : TFEnv) (sp : AppStateP1) (e : String)
    (h2 : env.studentGrads sp.studentWeights sp.xInput = Except.error e) :
    trainStep_p1 env sp = Except.error e := by
  unfold trainStep_p1
  dsimp only
  rw [h2]

theorem trainStep_p1_ok (env : TFEnv) (sp : AppStateP1) (g : Weights)
    (h2 : env.studentGrads sp.studentWeights sp.xInput = Except.ok g) :
    trainStep_p1 env sp = Except.ok
      { step := sp.step + 1, isAutoTraining := sp.isAutoTraining, xInput := sp.xInput,
        baselineWeights := (adamApplyGradients sp.baselineOptimizer
            (env.baseGrads sp.baselineWeights sp.xInput) sp.baselineWeights).2,
        studentWeights := (adamApplyGradients sp.studentOptimizer g sp.studentWeights).2,
        baselineOptimizer := (adamApplyGradients sp.baselineOptimizer
            (env.baseGrads sp.baselineWeights sp.xInput) sp.baselineWeights).1,
        studentOptimizer := (adamApplyGradients sp.studentOptimizer g sp.studentWeights).1 } := by
  unfold trainStep_p1
  dsimp only
  rw [h2]

/-- C1 counterexample: in app.js both models are driven by ONE shared
optimizer object, so applying the baseline's update DOES alter the student's
optimizer state: at a concrete fresh state, the baseline half of `trainStep`
advances the shared Adam β₁-power accumulator, and `trainStep` feeds exactly
that advanced optimizer state into the student's `applyGradients`. -/
theorem claim_C1_counterexample :
    (baselinePhase envOk appState0).optimizer.accBeta1 ≠ appState0.optimizer.accBeta1
    ∧ (trainStep envOk appState0).optimizer
        = (adamApplyGradients
            (adamApplyGradients appState0.optimizer [("b", 1)] [("b", 0)]).1
            [("s", 1)] [("s", 0)]).1 := by
  constructor
  · have h1 : (baselinePhase envOk appState0).optimizer.accBeta1 = 9 / 10 * (9 / 10) := rfl
    have h2 : appState0.optimizer.accBeta1 = 9 / 10 := rfl
    rw [h1, h2]
    norm_num
  · rfl

/-- C1 (amended): both models' gradients are computed against the same fixed
`state.xInput` in every training step. In p0/p1 each model has its own Adam
optimizer: the step's student update reads only the student optimizer, the
baseline components are unaffected by replacing the student optimizer and
vice versa, and `resetModels` creates two fresh optimizers. In app.js,
however, a single shared optimizer is used for both models: the student's
`applyGradients` receives the optimizer state already advanced by the
baseline's update (and `resetModels` creates only that one optimizer). -/
theorem claim_C1 (env : TFEnv) (s : AppState) (sp : AppStateP1) (o : AdamState)
    (layers : List Layer) (g : Weights) (a : Option String) (arch : String) :
    (s.studentLayers = some layers →
      env.studentGrads s.studentWeights s.xInput = Except.ok g →
      (trainStep env s).optimizer
        = (adamApplyGradients
            (adamApplyGradients s.optimizer (env.baseGrads s.baselineWeights s.xInput)
              s.baselineWeights).1 g s.studentWeights).1)
    ∧ (env.studentGrads sp.studentWeights sp.xInput = Except.ok g →
        trainStep_p1 env sp = Except.ok
          { step := sp.step + 1, isAutoTraining := sp.isAutoTraining, xInput := sp.xInput,
            baselineWeights := (adamApplyGradients sp.baselineOptimizer
                (env.baseGrads sp.baselineWeights sp.xInput) sp.baselineWeights).2,
            studentWeights := (adamApplyGradients sp.studentOptimizer g sp.studentWeights).2,
            baselineOptimizer := (adamApplyGradients sp.baselineOptimizer
                (env.baseGrads sp.baselineWeights sp.xInput) sp.baselineWeights).1,
            studentOptimizer := (adamApplyGradients sp.studentOptimizer g sp.studentWeights).1 })
    ∧ Except.map (fun t => (t.studentOptimizer, t.studentWeights))
        (trainStep_p1 env { sp with baselineOptimizer := o })
        = Except.map (fun t => (t.studentOptimizer, t.studentWeights)) (trainStep_p1 env sp)
    ∧ Except.map (fun t => (t.baselineOptimizer, t.baselineWeights))
        (trainStep_p1 env { sp with studentOptimizer := o })
        = Except.map (fun t => (t.baselineOptimizer, t.baselineWeights)) (trainStep_p1 env sp)
    ∧ (resetModels_p1 env sp arch).baselineOptimizer = adamNew configLearningRate_p1
    ∧ (resetModels_p1 env sp arch).studentOptimizer = adamNew configLearningRate_p1
    ∧ (resetModels env s a).optimizer = adamNew configLearningRate := by
  refine ⟨?_, ?_, ?_, ?_, rfl, rfl, rfl⟩
  · intro h1 h2
    rw [trainStep_ok env s layers g h1 h2]
    rfl
  · intro h2
    exact trainStep_p1_ok env sp g h2
  · cases hg : env.studentGrads sp.studentWeights sp.xInput with
    | error e =>
        rw [trainStep_p1_err env { sp with baselineOptimizer := o } e hg,
          trainStep_p1_err env sp e hg]
    | ok g2 =>
        rw [trainStep_p1_ok env { sp with baselineOptimizer := o } g2 hg,
          trainStep_p1_ok env sp g2 hg]
        simp only [Except.map]
  · cases hg : env.studentGrads sp.studentWeights sp.xInput with
    | error e =>
        rw [trainStep_p1_err env { sp with studentOptimizer := o } e hg,
          trainStep_p1_err env sp e hg]
    | ok g2 =>
        rw [trainStep_p1_ok env { sp with studentOptimizer := o } g2 hg,
          trainStep_p1_ok env sp g2 hg]
        simp only [Except.map]

/-- C1 witness: the amended characterizations instantiated at concrete
states and oracles. -/
theorem claim_C1_witness :
    (trainStep envOk appState0).optimizer
      = (adamApplyGradients
          (adamApplyGradients appState0.optimizer
            (envOk.baseGrads appState0.baselineWeights appState0.xInput)
            appState0.baselineWeights).1 [("s", 1)] appState0.studentWeights).1
    ∧ trainStep_p1 envOk p1State0 = Except.ok
        { step := p1State0.step + 1, isAutoTraining := p1State0.isAutoTraining,
          xInput := p1State0.xInput,
          baselineWeights := (adamApplyGradients p1State0.baselineOptimizer
              (envOk.baseGrads p1State0.baselineWeights p1State0.xInput)
              p1State0.baselineWeights).2,
          studentWeights := (adamApplyGradients p1State0.studentOptimizer [("s", 1)]
              p1State0.studentWeights).2,
          baselineOptimizer := (adamApplyGradients p1State0.baselineOptimizer
              (envOk.baseGrads p1State0.baselineWeights p1State0.xInput)
              p1State0.baselineWeights).1,
          studentOptimizer := (adamApplyGradients p1State0.studentOptimizer [("s", 1)]
              p1State0.studentWeights).1 } :=
  ⟨(claim_C1 envOk appState0 p1State0 (adamNew 1) createBaselineModel [("s", 1)]
      none ("transformation")).1 rfl rfl,
   (claim_C1 envOk appState0 p1State0 (adamNew 1) createBaselineModel [("s", 1)]
      none ("transformation")).2.1 rfl⟩

/-- C10: a failed training step is not atomic: if the student branch throws,
the step counter has already been incremented, the baseline's Adam update
(weights and optimizer state) from that step persists, the student weights
are untouched, the step reports an error and auto-training stops. -/
theorem claim_C10 (env : TFEnv) (s : AppState) (layers : List Layer) (e : String)
    (h1 : s.studentLayers = some layers)
    (h2 : env.studentGrads s.studentWeights s.xInput = Except.error e) :
    (trainStep env s).step = s.step + 1
    ∧ (trainStep env s).baselineWeights
        = (adamApplyGradients s.optimizer (env.baseGrads s.baselineWeights s.xInput)
            s.baselineWeights).2
    ∧ (trainStep env s).optimizer
        = (adamApplyGradients s.optimizer (env.baseGrads s.baselineWeights s.xInput)
            s.baselineWeights).1
    ∧ (trainStep env s).studentWeights = s.studentWeights
    ∧ (trainStep env s).isAutoTraining = false
    ∧ (trainStep env s).logs
        = { msg := "Error in Student Training: " ++ e, isError := true } :: s.logs := by
  rw [trainStep_err env s layers e h1 h2]
  exact ⟨rfl, rfl, rfl, rfl, rfl, rfl⟩

theorem sqrtQ_one : sqrtQ 1 = 1 := by
  have h1 : Int.sqrt (Rat.num 1) = 1 := by decide
  have h2 : Nat.sqrt (Rat.den 1) = 1 := by decide
  unfold sqrtQ
  rw [h1, h2]
  norm_num

/-- C10 witness: at a concrete state whose student branch throws, the failed
step leaves the counter incremented, auto-training stopped, and a baseline
weight vector that genuinely differs from the pre-step one. -/
theorem claim_C10_witness :
    (trainStep envErr appState0).step = appState0.step + 1
    ∧ (trainStep envErr appState0).isAutoTraining = false
    ∧ (trainStep envErr appState0).studentWeights = appState0.studentWeights
    ∧ (trainStep envErr appState0).baselineWeights ≠ appState0.baselineWeights := by
  have h := claim_C10 envErr appState0 createBaselineModel ("boom") rfl rfl
  refine ⟨h.1, h.2.2.2.2.1, h.2.2.2.1, ?_⟩
  rw [h.2.1]
  have hb : (adamApplyGradients appState0.optimizer
      (envErr.baseGrads appState0.baselineWeights appState0.xInput)
      appState0.baselineWeights).2
      = [("b", 0 - 1 / 20 * ((0 * (9 / 10) + 1 * (1 - 9 / 10)) / (1 - 9 / 10))
          / (sqrtQ ((0 * (999 / 1000) + 1 ^ 2 * (1 - 999 / 1000)) / (1 - 999 / 1000))
             + 1 / 10 ^ 7))] := rfl
  rw [hb]
  have hv : ((0 : ℚ) * (999 / 1000) + 1 ^ 2 * (1 - 999 / 1000)) / (1 - 999 / 1000) = 1 := by
    norm_num
  rw [hv, sqrtQ_one]
  have hbw : appState0.baselineWeights = [("b", 0)] := rfl
  rw [hbw]
  simp only [ne_eq, List.cons.injEq, Prod.mk.injEq, and_true, true_and, not_and]
  intro h0
  norm_num at h0

theorem resetModels_fallback (env : TFEnv) (s : AppState) (a : String) (e : String)
    (h : createStudentModel a = Except.error e) :
    (resetModels env s (some a)).studentLayers = some createBaselineModel
    ∧ (resetModels env s (some a)).logs
        = { msg := "Models reset. Student Arch: " ++ a, isError := false }
          :: { msg := "Error creating model: " ++ e, isError := true } :: s.logs := by
  unfold resetModels logMsg stopAutoTrainApp
  dsimp only [Option.getD]
  rw [h]
  by_cases hb : s.isAutoTraining <;> simp [hb]

/-- C4 counterexample: `trainStep`'s catch is NOT the only failure handling:
at a concrete state, `createStudentModel "bogus"` throws, yet `resetModels`
catches that exception itself and — beyond logging it — recovers by
installing a baseline-architecture model as the student model. -/
theorem claim_C4_counterexample :
    createStudentModel ("bogus") = Except.error ("Unknown architecture type: bogus")
    ∧ (resetModels envOk appState0 (some ("bogus"))).studentLayers
        = some createBaselineModel
    ∧ (resetModels envOk appState0 (some ("bogus"))).logs
        = [{ msg := "Models reset. Student Arch: bogus", isError := false },
           { msg := "Error creating model: Unknown architecture type: bogus",
             isError := true }] :=
  ⟨rfl, rfl, rfl⟩

/-- C4 (amended): there are two exception handlers, not one. If the student
branch of `trainStep` throws, the exception is caught, its message is logged
to the log panel as an error, auto-training is stopped and `trainStep`
returns without rethrowing. In addition, `resetModels` catches exceptions
from `createStudentModel`, logs them as errors, and — going beyond
logging — falls back to a baseline-architecture student model. -/
theorem claim_C4 (env : TFEnv) (s : AppState) (layers : List Layer)
    (e e2 : String) (a : String) :
    (s.studentLayers = some layers →
      env.studentGrads s.studentWeights s.xInput = Except.error e →
      (trainStep env s).isAutoTraining = false
      ∧ (trainStep env s).logs
          = { msg := "Error in Student Training: " ++ e, isError := true } :: s.logs)
    ∧ (createStudentModel a = Except.error e2 →
        (resetModels env s (some a)).studentLayers = some createBaselineModel
        ∧ (resetModels env s (some a)).logs
            = { msg := "Models reset. Student Arch: " ++ a, isError := false }
              :: { msg := "Error creating model: " ++ e2, isError := true } :: s.logs) := by
  constructor
  · intro h1 h2
    rw [trainStep_err env s layers e h1 h2]
    exact ⟨rfl, rfl⟩
  · intro h
    exact resetModels_fallback env s a e2 h

/-- C4 witness: both handlers exercised concretely — a thrown student branch
is caught, logged and stops auto-training; a failing `createStudentModel`
is caught by `resetModels` and replaced by the baseline fallback. -/
theorem claim_C4_witness :
    ((trainStep envErr appState0).isAutoTraining = false
      ∧ (trainStep envErr appState0).logs
          = { msg := "Error in Student Training: " ++ "boom", isError := true }
            :: appState0.logs)
    ∧ ((resetModels envErr appState0 (some ("bogus"))).studentLayers
          = some createBaselineModel
      ∧ (resetModels envErr appState0 (some ("bogus"))).logs
          = { msg := "Models reset. Student Arch: " ++ "bogus", isError := false }
            :: { msg := "Error creating model: " ++ "Unknown architecture type: bogus",
                 isError := true } :: appState0.logs) :=
  ⟨(claim_C4 envErr appState0 createBaselineModel ("boom")
      ("Unknown architecture type: bogus") ("bogus")).1 rfl rfl,
   (claim_C4 envErr appState0 createBaselineModel ("boom")
      ("Unknown architecture type: bogus") ("bogus")).2 rfl⟩

/-- C8: model construction is declarative layer stacking — the baseline and
every student architecture are exactly a stack of the library's flatten,
dense and reshape layers (by the `Layer` type, no other layer kind exists) —
and every weight update of `trainStep` is the result of the library's
reverse-mode gradients for the model's trainable weights fed to the Adam
optimizer's `applyGradients`; when the student branch fails, the student
weights are not updated by any other mechanism. -/
theorem claim_C8 (env : TFEnv) (s : AppState) (layers : List Layer)
    (g : Weights) (e : String) :
    createBaselineModel
      = [Layer.flatten, Layer.dense 64 Activation.relu,
         Layer.dense 256 Activation.sigmoid, Layer.reshape [16, 16, 1]]
    ∧ createStudentModel ("compression")
        = Except.ok [Layer.flatten, Layer.dense 64 Activation.relu,
            Layer.dense 256 Activation.sigmoid, Layer.reshape [16, 16, 1]]
    ∧ createStudentModel ("transformation")
        = Except.ok [Layer.flatten, Layer.dense 256 Activation.relu,
            Layer.dense 256 Activation.sigmoid, Layer.reshape [16, 16, 1]]
    ∧ createStudentModel ("expansion")
        = Except.ok [Layer.flatten, Layer.dense 512 Activation.relu,
            Layer.dense 256 Activation.sigmoid, Layer.reshape [16, 16, 1]]
    ∧ (s.studentLayers = some layers →
        env.studentGrads s.studentWeights s.xInput = Except.ok g →
        (trainStep env s).baselineWeights
          = (adamApplyGradients s.optimizer (env.baseGrads s.baselineWeights s.xInput)
              s.baselineWeights).2
        ∧ (trainStep env s).studentWeights
          = (adamApplyGradients
              (adamApplyGradients s.optimizer (env.baseGrads s.baselineWeights s.xInput)
                s.baselineWeights).1 g s.studentWeights).2)
    ∧ (s.studentLayers = some layers →
        env.studentGrads s.studentWeights s.xInput = Except.error e →
        (trainStep env s).studentWeights = s.studentWeights) := by
  refine ⟨rfl, rfl, rfl, rfl, ?_, ?_⟩
  · intro h1 h2
    rw [trainStep_ok env s layers g h1 h2]
    exact ⟨rfl, rfl⟩
  · intro h1 h2
    rw [trainStep_err env s layers e h1 h2]
    rfl

/-- C8 witness: the weight-update provenance instantiated concretely, on a
successful step and on a failing student branch. -/
theorem claim_C8_witness :
    ((trainStep envOk appState0).baselineWeights
        = (adamApplyGradients appState0.optimizer
            (envOk.baseGrads appState0.baselineWeights appState0.xInput)
            appState0.baselineWeights).2
      ∧ (trainStep envOk appState0).studentWeights
        = (adamApplyGradients
            (adamApplyGradients appState0.optimizer
              (envOk.baseGrads appState0.baselineWeights appState0.xInput)
              appState0.baselineWeights).1 [("s", 1)] appState0.studentWeights).2)
    ∧ (trainStep envErr appState0).studentWeights = appState0.studentWeights :=
  ⟨(claim_C8 envOk appState0 createBaselineModel [("s", 1)] ("boom")).2.2.2.2.1 rfl rfl,
   (claim_C8 envErr appState0 createBaselineModel [("s", 1)] ("boom")).2.2.2.2.2 rfl rfl⟩

end NN2
